import Mathlib

/-!
Shallow embedding of the model-routing core of this repository
(`src/model_router.py`, `src/discord_interface.py`, `scripts/resolve_model.py`)
and proofs about it.

The JSON catalog (`config/providers.json`) is embedded as `Config`: each
optional JSON key becomes an `Option` field (`none` = key absent or null),
dictionaries become association lists in declared order, and Python
truthiness on optional strings (`if x:`) becomes `truthy`.  Network I/O
(the Ollama reachability GET, the Discord webhook POST) is passed in as an
explicit oracle argument, and a Python function that can raise is embedded
as `Except String`, the `.error` case carrying the exception's message.
-/

namespace ModelRouter

/-- Python truthiness of an optional string: `None` and `""` are falsy. -/
def truthy : Option String → Bool
  | some s => !s.isEmpty
  | none => false

/-- One `{provider, model}` object of the catalog (a role's `primary` or one
entry of its `fallbacks`); either key may be absent. -/
structure PairCfg where
  provider : Option String
  model : Option String
deriving DecidableEq

/-- One entry of the catalog's `roles` map; `primary` or `fallbacks` may be
absent (`role_cfg.get("primary", {})`, `role_cfg.get("fallbacks", [])`). -/
structure RoleCfg where
  primary : Option PairCfg
  fallbacks : Option (List PairCfg)
deriving DecidableEq

/-- One entry of the catalog's `providers` map, with the keys
`_is_model_enabled` and `validate_environment` read. -/
structure ProviderCfg where
  enabled : Option Bool
  models : Option (List String)
  auth_env : Option (List String)
  base_url_env : Option String
deriving DecidableEq

/-- The catalog's `defaults` section (`{role?, provider?, model?}`). -/
structure Defaults where
  role : Option String
  provider : Option String
  model : Option String
deriving DecidableEq

/-- The parsed `config/providers.json`: `providers` and `roles` are JSON
objects, embedded as association lists in declared order. -/
structure Config where
  providers : List (String × ProviderCfg)
  roles : List (String × RoleCfg)
  defaults : Defaults
deriving DecidableEq

/-- `dict.get(key)` on an association list: the first binding of `key`. -/
def lookup (m : List (String × α)) (key : String) : Option α :=
  (m.find? (fun p => p.1 == key)).map (fun p => p.2)

/-- `ResolvedModel` of `src/model_router.py` (frozen dataclass). -/
structure ResolvedModel where
  provider : String
  model : String
  role : String
  source : String
deriving DecidableEq

/-- `_is_model_enabled` (`src/model_router.py` lines 55-59): the provider
entry exists, is enabled, and lists the model.  A missing entry, a missing
or false `enabled` key, and an empty entry (falsy dict) all yield `False`
exactly as the Python `not provider_cfg or not provider_cfg.get("enabled",
False)` test does. -/
def isModelEnabled (cfg : Config) (provider model : String) : Bool :=
  match lookup cfg.providers provider with
  | none => false
  | some providerCfg =>
      providerCfg.enabled.getD false && (providerCfg.models.getD []).contains model

/-- Message of the unknown-role `ModelResolutionError` (`_candidate_chain`). -/
def unknownRoleMsg (role : String) : String :=
  s!"Unknown role '{role}'. Check config/providers.json roles."

/-- Message of the missing-primary `ModelResolutionError` (`_candidate_chain`). -/
def missingPrimaryMsg (role : String) : String :=
  s!"Role '{role}' missing primary provider/model."

/-- Message of the exhaustion `ModelResolutionError` of `resolve_runtime_model`. -/
def noModelMsg (role : String) : String :=
  s!"No available model for role '{role}'. Check provider enablement and model IDs."

/-- Message of the exhaustion `ModelResolutionError` of `resolve_with_retry`. -/
def exhaustedMsg (role errorReason : String) : String :=
  s!"All fallback models exhausted for role '{role}'. Last error: {errorReason}"

/-- A Python-empty role dict (`if not role_cfg:`): both keys absent. -/
def roleFalsy (roleCfg : RoleCfg) : Bool :=
  roleCfg.primary.isNone && roleCfg.fallbacks.isNone

/-- The `for fallback in role_cfg.get("fallbacks", [])` loop of
`_candidate_chain`: keep, in order, the entries whose `provider` and `model`
are both present and non-empty. -/
def fallbackPairs : List PairCfg → List (String × String)
  | [] => []
  | fb :: rest =>
      if truthy fb.provider && truthy fb.model then
        (fb.provider.getD "", fb.model.getD "") :: fallbackPairs rest
      else
        fallbackPairs rest

/-- `_candidate_chain` (`src/model_router.py` lines 75-93).  A missing role
key and a present-but-empty role dict both raise the unknown-role error
(`if not role_cfg:`); a primary whose `provider` or `model` is absent or
empty raises the missing-primary error; otherwise the chain is the primary
pair followed by the well-formed fallback pairs in declared order. -/
def candidateChain (cfg : Config) (role : String) : Except String (List (String × String)) :=
  match lookup cfg.roles role with
  | none => .error (unknownRoleMsg role)
  | some roleCfg =>
      if roleFalsy roleCfg then .error (unknownRoleMsg role)
      else
        let primary := roleCfg.primary.getD ⟨none, none⟩
        if truthy primary.provider && truthy primary.model then
          .ok ((primary.provider.getD "", primary.model.getD "") ::
            fallbackPairs (roleCfg.fallbacks.getD []))
        else
          .error (missingPrimaryMsg role)

/-- `selected_role = role or cfg.get("defaults", {}).get("role", "ace")`
(`resolve_runtime_model` line 156). -/
def selectRole (role : Option String) (cfg : Config) : String :=
  if truthy role then role.getD "" else cfg.defaults.role.getD "ace"

/-- The `for idx, (provider, model) in enumerate(chain)` loop of
`resolve_runtime_model` (lines 175-185): return the first candidate that
`_is_model_enabled` accepts, tagged `primary` at index 0 and
`fallback_{idx}` (full-chain index) elsewhere. -/
def resolveLoop (cfg : Config) (selectedRole : String) :
    List (String × String) → Nat → Option ResolvedModel
  | [], _ => none
  | (provider, model) :: rest, idx =>
      if isModelEnabled cfg provider model then
        some ⟨provider, model, selectedRole,
          if idx = 0 then "primary" else "fallback_" ++ toString idx⟩
      else
        resolveLoop cfg selectedRole rest (idx + 1)

/-- The chain-walking tail of `resolve_runtime_model` (lines 175-189),
reached both on a role request and when an explicit pair is unusable. -/
def resolveFromChain (cfg : Config) (selectedRole : String) : Except String ResolvedModel :=
  match candidateChain cfg selectedRole with
  | .error e => .error e
  | .ok chain =>
      match resolveLoop cfg selectedRole chain 0 with
      | some r => .ok r
      | none => .error (noModelMsg selectedRole)

/-- `resolve_runtime_model` (`src/model_router.py` lines 147-189).  The
`config` argument is taken as already loaded and the logger is a side
channel, so both are dropped; an explicit pair is honoured only when both
strings are truthy (`if requested_provider and requested_model:`). -/
def resolveRuntimeModel (role requestedProvider requestedModel : Option String)
    (cfg : Config) : Except String ResolvedModel :=
  let selectedRole := selectRole role cfg
  if truthy requestedProvider && truthy requestedModel then
    if isModelEnabled cfg (requestedProvider.getD "") (requestedModel.getD "") then
      .ok ⟨requestedProvider.getD "", requestedModel.getD "", selectedRole, "explicit"⟩
    else
      resolveFromChain cfg selectedRole
  else
    resolveFromChain cfg selectedRole

/-- The `for provider, model in _candidate_chain(cfg, role)` loop of
`resolve_with_retry` (lines 203-214): skip the already-tried pairs, return
the first remaining usable pair. -/
def retryLoop (cfg : Config) (triedSet : List (String × String)) :
    List (String × String) → Option (String × String)
  | [] => none
  | (provider, model) :: rest =>
      if triedSet.contains (provider, model) then retryLoop cfg triedSet rest
      else if isModelEnabled cfg provider model then some (provider, model)
      else retryLoop cfg triedSet rest

/-- `resolve_with_retry` (`src/model_router.py` lines 192-218);
`tried_set = set(tried or [])` is membership in the given list. -/
def resolveWithRetry (role errorReason : String) (tried : Option (List (String × String)))
    (cfg : Config) : Except String ResolvedModel :=
  let triedSet := tried.getD []
  match candidateChain cfg role with
  | .error e => .error e
  | .ok chain =>
      match retryLoop cfg triedSet chain with
      | some (provider, model) => .ok ⟨provider, model, role, "retry_fallback"⟩
      | none => .error (exhaustedMsg role errorReason)

/-- The process environment: `os.getenv` (`none` = variable unset). -/
def Env : Type := String → Option String

/-- ASCII whitespace, as `int()` strips it from its argument. -/
def isSpaceChar (c : Char) : Bool :=
  c = ' ' || c = '\t' || c = '\n' || c = '\r'

/-- A non-empty run of decimal digits read as a number. -/
def decDigits? (cs : List Char) : Option Nat :=
  if cs.isEmpty || !cs.all Char.isDigit then none
  else some (cs.foldl (fun acc c => 10 * acc + (c.toNat - 48)) 0)

/-- Python `int()` on the strings this code feeds it: surrounding whitespace
stripped, an optional sign and decimal digits; `none` models the
`ValueError` that `int` raises on anything else. -/
def pyInt? (s : String) : Option Int :=
  let cs := (((s.toList.dropWhile isSpaceChar).reverse.dropWhile isSpaceChar).reverse)
  match cs with
  | '-' :: ds => (decDigits? ds).map (fun n => -(n : Int))
  | '+' :: ds => (decDigits? ds).map (fun n => (n : Int))
  | ds => (decDigits? ds).map (fun n => (n : Int))

/-- The `required_envs` list of `validate_environment` (lines 100-108). -/
def requiredEnvs : List String :=
  ["ANTHROPIC_TOKEN", "GOOGLE_API_KEY", "OLLAMA_BASE_URL", "DISCORD_BOT_TOKEN",
   "DISCORD_GUILD_ID", "INFERENCE_TIMEOUT", "FALLBACK_RETRY_COUNT"]

/-- Message appended for a missing required environment variable. -/
def envMissingMsg (name : String) : String :=
  s!"Missing required environment variable: {name}"

/-- Message appended for a provider whose `auth_env`/`base_url_env` variable
is missing. -/
def providerEnvMsg (providerName envName : String) : String :=
  s!"Provider '{providerName}' requires env '{envName}', but it is missing."

/-- The message `int()` raises on a non-numeric `INFERENCE_TIMEOUT`. -/
def badTimeoutMsg (s : String) : String :=
  s!"invalid literal for int() with base 10: '{s}'"

/-- The per-provider body of the `for provider_name, provider_cfg in
providers.items()` loop of `validate_environment` (lines 116-136).
`checkOllama` is the `_check_ollama_connectivity(base_url, timeout)` network
probe, an oracle here: `none` = reachable, `some err` = the failure message
it returns. -/
def providerIssues (env : Env) (checkOllama : String → Int → Option String)
    (timeout : Int) (providerName : String) (providerCfg : ProviderCfg) : List String :=
  if providerCfg.enabled.getD false = false then []
  else
    ((providerCfg.auth_env.getD []).filterMap (fun authEnv =>
        if truthy (env authEnv) then none
        else some (providerEnvMsg providerName authEnv))) ++
    (if truthy providerCfg.base_url_env then
      let baseUrlEnv := providerCfg.base_url_env.getD ""
      if !truthy (env baseUrlEnv) then [providerEnvMsg providerName baseUrlEnv]
      else if providerName = "ollama" then
        match checkOllama ((env baseUrlEnv).getD "") timeout with
        | some err => [err]
        | none => []
      else []
    else [])

/-- `validate_environment` (`src/model_router.py` lines 96-144).  The result
accumulates, in the source's order, the missing required variables, the
enabled providers' credential/URL/connectivity issues, and the roles whose
`_candidate_chain` raises.  The `.error` case is the one uncaught exception
of the function body: the `ValueError` from
`int(os.getenv("INFERENCE_TIMEOUT", "10"))`. -/
def validateEnvironment (cfg : Config) (env : Env)
    (checkOllama : String → Int → Option String) : Except String (List String) :=
  let envFailures := requiredEnvs.filterMap (fun name =>
    if truthy (env name) then none else some (envMissingMsg name))
  let rawTimeout := (env "INFERENCE_TIMEOUT").getD "10"
  match pyInt? rawTimeout with
  | none => .error (badTimeoutMsg rawTimeout)
  | some timeout =>
      let provFailures := cfg.providers.flatMap (fun p =>
        providerIssues env checkOllama timeout p.1 p.2)
      let roleFailures := cfg.roles.filterMap (fun p =>
        match candidateChain cfg p.1 with
        | .error e => some e
        | .ok _ => none)
      .ok (envFailures ++ provFailures ++ roleFailures)

/-- What `main` of `scripts/resolve_model.py` does past the preflight branch:
reject a partial explicit pair with exit code 2, otherwise report the
resolver's answer (exit 0) or its error (exit 1). -/
inductive CliOutcome where
  | inputError
  | resolved (r : ResolvedModel)
  | resolveError (msg : String)
deriving DecidableEq

/-- The process exit code of each CLI outcome (lines 68, 82, 102). -/
def CliOutcome.exitCode : CliOutcome → Nat
  | .inputError => 2
  | .resolved _ => 0
  | .resolveError _ => 1

/-- The resolution path of `main` (`scripts/resolve_model.py` lines 66-102,
the path taken when `--preflight` is not given): the partial-pair guard of
lines 66-68 runs before `resolve_runtime_model` is called. -/
def cliResolve (roleArg providerArg modelArg : Option String) (cfg : Config) : CliOutcome :=
  if (truthy providerArg && !truthy modelArg) || (truthy modelArg && !truthy providerArg) then
    .inputError
  else
    match resolveRuntimeModel roleArg providerArg modelArg cfg with
    | .ok r => .resolved r
    | .error e => .resolveError e

/-- Result dict of `send_discord_alert` (`{"ok": ..., "message": ...}`). -/
structure AlertResult where
  ok : Bool
  message : String
deriving DecidableEq

/-- What `urllib.request.urlopen` does with the webhook request, as the code
distinguishes the outcomes: a response status, a caught `URLError`, or a
caught `TimeoutError`. -/
inductive NetOutcome where
  | status (code : Nat)
  | urlError (reason : String)
  | timedOut
deriving DecidableEq

/-- The scheme `urllib.request.Request` extracts from a URL (its `_parse`,
regex `^([^/:]+):`): the non-empty text before the first colon, provided it
holds no slash; `none` makes the constructor raise
`ValueError("unknown url type: ...")`. -/
def urlType (url : String) : Option String :=
  let cs := url.toList
  if cs.contains ':' then
    let scheme := cs.takeWhile (fun c => c ≠ ':')
    if scheme.isEmpty || scheme.contains '/' then none
    else some (String.mk (scheme.map Char.toLower))
  else none

/-- `send_discord_alert` (`src/discord_interface.py` lines 11-36).  The
`details` argument stands for the already-serialized JSON block appended to
the message body (the body does not affect the outcome).  The `.error` case
is the one uncaught exception of the body: the `ValueError` that the
`urllib.request.Request` constructor at line 20 raises on a URL with no
scheme, before the `try` block of lines 27-34 is entered. -/
def sendDiscordAlert (webhookUrl title description : String) (details : Option String)
    (net : NetOutcome) : Except String AlertResult :=
  if webhookUrl.isEmpty then
    .ok ⟨false, "Missing Discord webhook URL."⟩
  else
    match urlType webhookUrl with
    | none => .error s!"unknown url type: '{webhookUrl}'"
    | some _ =>
        match net with
        | .status code =>
            if code ≠ 200 && code ≠ 204 then
              .ok ⟨false, s!"Discord webhook failed with HTTP {code}"⟩
            else
              .ok ⟨true, "Discord alert sent."⟩
        | .urlError reason => .ok ⟨false, s!"Discord webhook request failed: {reason}"⟩
        | .timedOut => .ok ⟨false, "Discord webhook request failed: timeout"⟩

/-- Whether one candidate pair passes the static prober. -/
def usable (cfg : Config) (c : String × String) : Bool :=
  isModelEnabled cfg c.1 c.2

/-- The sequence of pairs on which the loop of `resolve_runtime_model`
(lines 175-185) calls `_is_model_enabled`: every candidate up to and
including the first usable one, the whole chain when none is usable. -/
def probeTrace (cfg : Config) : List (String × String) → List (String × String)
  | [] => []
  | c :: rest =>
      if usable cfg c then [c] else c :: probeTrace cfg rest

/-- Whether an embedded call left its Python body through an exception
(`.error`) rather than a return value (`.ok`). -/
def raised {α : Type} : Except String α → Bool
  | .error _ => true
  | .ok _ => false

/-- Observation function for the statements below: the position and value of
the first candidate of a chain that the static prober accepts. -/
def firstUsable (cfg : Config) : List (String × String) → Option (Nat × String × String)
  | [] => none
  | c :: rest =>
      if usable cfg c then some (0, c)
      else
        match firstUsable cfg rest with
        | none => none
        | some (k, c') => some (k + 1, c')

/-- The catalog of the spec's concrete scenario: role `ace` with primary
`(anthropic, claude-x)` on a disabled provider and fallback `(ollama, qwen)`
enabled and listed. -/
def cfgAce : Config :=
  { providers :=
      [("anthropic", ⟨some false, some ["claude-x"], some ["ANTHROPIC_TOKEN"], none⟩),
       ("ollama", ⟨some true, some ["qwen"], none, some "OLLAMA_BASE_URL"⟩)],
    roles :=
      [("ace", ⟨some ⟨some "anthropic", some "claude-x"⟩,
        some [⟨some "ollama", some "qwen"⟩]⟩)],
    defaults := ⟨some "ace", none, none⟩ }

/-- An environment with every variable set and a numeric timeout. -/
def envAll : Env :=
  fun name => if name = "INFERENCE_TIMEOUT" then some "10" else some "value"

/-- A catalog whose only role's only candidate sits on a disabled provider:
the chain builds, yet no candidate is usable. -/
def cfgDeadPrimary : Config :=
  { providers := [("anthropic", ⟨some false, some ["claude-x"], none, none⟩)],
    roles := [("ace", ⟨some ⟨some "anthropic", some "claude-x"⟩, none⟩)],
    defaults := ⟨none, none, none⟩ }

/-- A catalog whose role `ace` has a usable primary. -/
def cfgLivePrimary : Config :=
  { providers := [("anthropic", ⟨some true, some ["claude-x"], none, none⟩)],
    roles := [("ace", ⟨some ⟨some "anthropic", some "claude-x"⟩, none⟩)],
    defaults := ⟨none, none, none⟩ }

/-- A catalog that declares global default provider and model but no default
role, and no roles at all. -/
def cfgDefaultsPair : Config :=
  { providers := [("anthropic", ⟨some true, some ["claude-x"], none, none⟩)],
    roles := [],
    defaults := ⟨none, some "anthropic", some "claude-x"⟩ }

/-- A catalog whose role policy lists the same (unusable) pair as primary
and again as its only fallback. -/
def cfgDupPair : Config :=
  { providers := [("anthropic", ⟨some false, some ["claude-x"], none, none⟩)],
    roles := [("ace", ⟨some ⟨some "anthropic", some "claude-x"⟩,
      some [⟨some "anthropic", some "claude-x"⟩]⟩)],
    defaults := ⟨none, none, none⟩ }

lemma truthy_some_of_ne {s : String} (h : s ≠ "") : truthy (some s) = true := by
  have hs : s.isEmpty = false := by
    cases hs : s.isEmpty
    · rfl
    · exact absurd ((String.isEmpty_iff s).mp hs) h
  simp [truthy, hs]

lemma selectRole_some {r : String} (cfg : Config) (h : r ≠ "") :
    selectRole (some r) cfg = r := by
  simp [selectRole, truthy_some_of_ne h]

lemma resolveRuntimeModel_role {r : String} (cfg : Config) (h : r ≠ "") :
    resolveRuntimeModel (some r) none none cfg = resolveFromChain cfg r := by
  simp [resolveRuntimeModel, truthy, selectRole_some cfg h]

lemma firstUsable_cons_usable {cfg : Config} {c : String × String}
    (rest : List (String × String)) (h : usable cfg c = true) :
    firstUsable cfg (c :: rest) = some (0, c) := by
  simp [firstUsable, h]

lemma firstUsable_usable {cfg : Config} :
    ∀ {chain : List (String × String)} {k : Nat} {c : String × String},
      firstUsable cfg chain = some (k, c) → usable cfg c = true := by
  intro chain
  induction chain with
  | nil => intro k c h; exact absurd h (by simp [firstUsable])
  | cons hd tl ih =>
      intro k c h
      rw [firstUsable] at h
      by_cases hu : usable cfg hd = true
      · rw [if_pos hu] at h
        simp only [Option.some.injEq, Prod.mk.injEq] at h
        rw [← h.2]
        exact hu
      · rw [if_neg hu] at h
        cases hfu : firstUsable cfg tl with
        | none => rw [hfu] at h; exact absurd h (by simp)
        | some q =>
            obtain ⟨k', c'⟩ := q
            rw [hfu] at h
            simp only [Option.some.injEq, Prod.mk.injEq] at h
            rw [← h.2]
            exact ih hfu

lemma firstUsable_mem {cfg : Config} :
    ∀ {chain : List (String × String)} {k : Nat} {c : String × String},
      firstUsable cfg chain = some (k, c) → c ∈ chain := by
  intro chain
  induction chain with
  | nil => intro k c h; exact absurd h (by simp [firstUsable])
  | cons hd tl ih =>
      intro k c h
      rw [firstUsable] at h
      by_cases hu : usable cfg hd = true
      · rw [if_pos hu] at h
        simp only [Option.some.injEq, Prod.mk.injEq] at h
        rw [← h.2]
        exact List.mem_cons_self hd tl
      · rw [if_neg hu] at h
        cases hfu : firstUsable cfg tl with
        | none => rw [hfu] at h; exact absurd h (by simp)
        | some q =>
            obtain ⟨k', c'⟩ := q
            rw [hfu] at h
            simp only [Option.some.injEq, Prod.mk.injEq] at h
            rw [← h.2]
            exact List.mem_cons_of_mem hd (ih hfu)

lemma probeTrace_of_firstUsable_none {cfg : Config} :
    ∀ {chain : List (String × String)}, firstUsable cfg chain = none →
      probeTrace cfg chain = chain := by
  intro chain
  induction chain with
  | nil => intro _; rfl
  | cons hd tl ih =>
      intro h
      rw [firstUsable] at h
      by_cases hu : usable cfg hd = true
      · rw [if_pos hu] at h; exact absurd h (by simp)
      · rw [if_neg hu] at h
        cases hfu : firstUsable cfg tl with
        | none => simp [probeTrace, hu, ih hfu]
        | some q => rw [hfu] at h; obtain ⟨k', c'⟩ := q; exact absurd h (by simp)

lemma probeTrace_of_firstUsable_some {cfg : Config} :
    ∀ {chain : List (String × String)} {k : Nat} {c : String × String},
      firstUsable cfg chain = some (k, c) →
      probeTrace cfg chain = chain.take (k + 1) := by
  intro chain
  induction chain with
  | nil => intro k c h; exact absurd h (by simp [firstUsable])
  | cons hd tl ih =>
      intro k c h
      rw [firstUsable] at h
      by_cases hu : usable cfg hd = true
      · rw [if_pos hu] at h
        simp only [Option.some.injEq, Prod.mk.injEq] at h
        rw [← h.1]
        simp [probeTrace, hu]
      · rw [if_neg hu] at h
        cases hfu : firstUsable cfg tl with
        | none => rw [hfu] at h; exact absurd h (by simp)
        | some q =>
            obtain ⟨k', c'⟩ := q
            rw [hfu] at h
            simp only [Option.some.injEq, Prod.mk.injEq] at h
            rw [← h.1]
            simp [probeTrace, hu, ih hfu]

lemma resolveLoop_of_firstUsable_none {cfg : Config} {r : String} :
    ∀ {chain : List (String × String)} (idx : Nat), firstUsable cfg chain = none →
      resolveLoop cfg r chain idx = none := by
  intro chain
  induction chain with
  | nil => intro idx _; rfl
  | cons hd tl ih =>
      intro idx h
      obtain ⟨p, m⟩ := hd
      rw [firstUsable] at h
      by_cases hu : usable cfg (p, m) = true
      · rw [if_pos hu] at h; exact absurd h (by simp)
      · rw [if_neg hu] at h
        cases hfu : firstUsable cfg tl with
        | none =>
            have hu' : isModelEnabled cfg p m = false := by
              simpa [usable] using hu
            simp [resolveLoop, hu', ih (idx + 1) hfu]
        | some q => rw [hfu] at h; obtain ⟨k', c'⟩ := q; exact absurd h (by simp)

lemma resolveLoop_of_firstUsable_some {cfg : Config} {r : String} :
    ∀ {chain : List (String × String)} (idx : Nat) {k : Nat} {c : String × String},
      firstUsable cfg chain = some (k, c) →
      resolveLoop cfg r chain idx =
        some ⟨c.1, c.2, r,
          if idx + k = 0 then "primary" else "fallback_" ++ toString (idx + k)⟩ := by
  intro chain
  induction chain with
  | nil => intro idx k c h; exact absurd h (by simp [firstUsable])
  | cons hd tl ih =>
      intro idx k c h
      obtain ⟨p, m⟩ := hd
      rw [firstUsable] at h
      by_cases hu : usable cfg (p, m) = true
      · rw [if_pos hu] at h
        simp only [Option.some.injEq, Prod.mk.injEq] at h
        have hu' : isModelEnabled cfg p m = true := by
          simpa [usable] using hu
        rw [← h.1, ← h.2]
        simp [resolveLoop, hu']
      · rw [if_neg hu] at h
        cases hfu : firstUsable cfg tl with
        | none => rw [hfu] at h; exact absurd h (by simp)
        | some q =>
            obtain ⟨k', c'⟩ := q
            rw [hfu] at h
            simp only [Option.some.injEq, Prod.mk.injEq] at h
            have hu' : isModelEnabled cfg p m = false := by
              simpa [usable] using hu
            have hrec := ih (idx + 1) (k := k') (c := c') hfu
            rw [← h.1, ← h.2]
            simp only [resolveLoop, hu', Bool.false_eq_true, if_false]
            rw [hrec]
            have harith : idx + 1 + k' = idx + (k' + 1) := by omega
            rw [harith]

lemma resolveFromChain_of_some {cfg : Config} {r : String}
    {chain : List (String × String)} {k : Nat} {c : String × String}
    (hch : candidateChain cfg r = .ok chain)
    (hfu : firstUsable cfg chain = some (k, c)) :
    resolveFromChain cfg r =
      .ok ⟨c.1, c.2, r, if k = 0 then "primary" else "fallback_" ++ toString k⟩ := by
  have hloop := resolveLoop_of_firstUsable_some (r := r) 0 hfu
  simp only [Nat.zero_add] at hloop
  simp [resolveFromChain, hch, hloop]

lemma resolveFromChain_of_none {cfg : Config} {r : String}
    {chain : List (String × String)}
    (hch : candidateChain cfg r = .ok chain)
    (hfu : firstUsable cfg chain = none) :
    resolveFromChain cfg r = .error (noModelMsg r) := by
  have hloop := resolveLoop_of_firstUsable_none (r := r) 0 hfu
  simp [resolveFromChain, hch, hloop]

lemma fallbackPairs_eq_filterMap :
    ∀ fbs : List PairCfg,
      fallbackPairs fbs = fbs.filterMap (fun fb =>
        if truthy fb.provider && truthy fb.model then
          some (fb.provider.getD "", fb.model.getD "")
        else none) := by
  intro fbs
  induction fbs with
  | nil => rfl
  | cons fb rest ih =>
      by_cases h : (truthy fb.provider && truthy fb.model) = true
      · rw [fallbackPairs, if_pos h, List.filterMap_cons, if_pos h, ih]
      · rw [fallbackPairs, if_neg h, List.filterMap_cons, if_neg h, ih]

example : candidateChain cfgAce "ace" = .ok [("anthropic", "claude-x"), ("ollama", "qwen")] := rfl
example : resolveRuntimeModel (some "ace") none none cfgAce =
    .ok ⟨"ollama", "qwen", "ace", "fallback_1"⟩ := rfl
example : validateEnvironment cfgAce envAll (fun _ _ => some "ERR") = .ok ["ERR"] := rfl
example : validateEnvironment cfgDeadPrimary envAll (fun _ _ => none) = .ok [] := rfl
example : resolveRuntimeModel (some "ace") none none cfgDeadPrimary =
    .error (noModelMsg "ace") := rfl
example : resolveRuntimeModel (some "ace") (some "anthropic") none cfgLivePrimary =
    .ok ⟨"anthropic", "claude-x", "ace", "primary"⟩ := rfl
example : resolveRuntimeModel none none none cfgDefaultsPair =
    .error (unknownRoleMsg "ace") := rfl
example : candidateChain cfgDupPair "ace" =
    .ok [("anthropic", "claude-x"), ("anthropic", "claude-x")] := rfl
example : probeTrace cfgDupPair [("anthropic", "claude-x"), ("anthropic", "claude-x")] =
    [("anthropic", "claude-x"), ("anthropic", "claude-x")] := rfl
example : sendDiscordAlert "discord.com/api/webhooks/1" "t" "d" none (.status 204) =
    .error "unknown url type: 'discord.com/api/webhooks/1'" := rfl
example : urlType "https://discord.com/x" = some "https" := rfl
example : resolveWithRetry "ace" "boom" (some [("anthropic", "claude-x"), ("ollama", "qwen")]) cfgAce =
    .error (exhaustedMsg "ace" "boom") := rfl
example : resolveWithRetry "ace" "boom" (some [("anthropic", "claude-x")]) cfgAce =
    .ok ⟨"ollama", "qwen", "ace", "retry_fallback"⟩ := rfl

lemma retryLoop_some {cfg : Config} {tried : List (String × String)} :
    ∀ {chain : List (String × String)} {c : String × String},
      retryLoop cfg tried chain = some c →
      tried.contains c = false ∧ c ∈ chain ∧ usable cfg c = true := by
  intro chain
  induction chain with
  | nil => intro c h; cases h
  | cons hd tl ih =>
      intro c h
      obtain ⟨p, m⟩ := hd
      rw [retryLoop] at h
      by_cases hc : tried.contains (p, m) = true
      · rw [if_pos hc] at h
        obtain ⟨h1, h2, h3⟩ := ih h
        exact ⟨h1, List.mem_cons_of_mem _ h2, h3⟩
      · rw [if_neg hc] at h
        by_cases hu : isModelEnabled cfg p m = true
        · rw [if_pos hu] at h
          injection h with h
          rw [← h]
          exact ⟨Bool.eq_false_iff.mpr hc, List.mem_cons_self _ _, hu⟩
        · rw [if_neg hu] at h
          obtain ⟨h1, h2, h3⟩ := ih h
          exact ⟨h1, List.mem_cons_of_mem _ h2, h3⟩

lemma retryLoop_none_of_covered {cfg : Config} {tried : List (String × String)} :
    ∀ {chain : List (String × String)},
      (∀ c ∈ chain, usable cfg c = true → tried.contains c = true) →
      retryLoop cfg tried chain = none := by
  intro chain
  induction chain with
  | nil => intro _; rfl
  | cons hd tl ih =>
      intro hcov
      obtain ⟨p, m⟩ := hd
      have hrest : ∀ c ∈ tl, usable cfg c = true → tried.contains c = true :=
        fun c hmem hu => hcov c (List.mem_cons_of_mem _ hmem) hu
      rw [retryLoop]
      by_cases hc : tried.contains (p, m) = true
      · rw [if_pos hc]
        exact ih hrest
      · rw [if_neg hc]
        by_cases hu : isModelEnabled cfg p m = true
        · exact absurd (hcov (p, m) (List.mem_cons_self _ _) hu) hc
        · rw [if_neg hu]
          exact ih hrest

/-- C1: the claim reads the `fallback_{i}` tag as indexing the fallback-only
portion of the chain.  In catalog `cfgAce` the first usable candidate of
role `ace` is `(ollama, qwen)` — the fallback at index 0 of the
fallback-only portion — yet `resolve_runtime_model` tags it `fallback_1`,
its index in the full chain (primary included), not `fallback_0`. -/
theorem c1_fallback_tag_counterexample :
    candidateChain cfgAce "ace" = .ok [("anthropic", "claude-x"), ("ollama", "qwen")] ∧
    resolveRuntimeModel (some "ace") none none cfgAce =
      .ok ⟨"ollama", "qwen", "ace", "fallback_1"⟩ ∧
    ("fallback_1" : String) ≠ "fallback_0" := by
  refine ⟨rfl, rfl, ?_⟩
  decide

/-- C1 (amended): a role resolution walks the chain in declared order,
returns the first usable candidate and probes nothing beyond it; the tag is
`primary` at chain index 0 and otherwise `fallback_{k}` where `k` is the
index in the FULL chain, so the first fallback is `fallback_1`. -/
theorem c1_first_usable_tagged_by_chain_index {cfg : Config} {r : String}
    {chain : List (String × String)} (hr : r ≠ "")
    (hch : candidateChain cfg r = .ok chain) :
    (∀ k c, firstUsable cfg chain = some (k, c) →
      resolveRuntimeModel (some r) none none cfg =
        .ok ⟨c.1, c.2, r, if k = 0 then "primary" else "fallback_" ++ toString k⟩ ∧
      probeTrace cfg chain = chain.take (k + 1)) ∧
    (firstUsable cfg chain = none →
      resolveRuntimeModel (some r) none none cfg = .error (noModelMsg r) ∧
      probeTrace cfg chain = chain) := by
  constructor
  · intro k c hfu
    refine ⟨?_, probeTrace_of_firstUsable_some hfu⟩
    rw [resolveRuntimeModel_role cfg hr]
    exact resolveFromChain_of_some hch hfu
  · intro hfu
    refine ⟨?_, probeTrace_of_firstUsable_none hfu⟩
    rw [resolveRuntimeModel_role cfg hr]
    exact resolveFromChain_of_none hch hfu

/-- Witness for the amended C1 at the concrete catalog `cfgAce`. -/
theorem c1_first_usable_tagged_by_chain_index_witness :
    ("ace" : String) ≠ "" ∧
    candidateChain cfgAce "ace" = .ok [("anthropic", "claude-x"), ("ollama", "qwen")] ∧
    firstUsable cfgAce [("anthropic", "claude-x"), ("ollama", "qwen")] =
      some (1, ("ollama", "qwen")) ∧
    resolveRuntimeModel (some "ace") none none cfgAce =
      .ok ⟨"ollama", "qwen", "ace",
        if (1 : Nat) = 0 then "primary" else "fallback_" ++ toString (1 : Nat)⟩ ∧
    probeTrace cfgAce [("anthropic", "claude-x"), ("ollama", "qwen")] =
      [("anthropic", "claude-x"), ("ollama", "qwen")].take (1 + 1) := by
  refine ⟨by decide, rfl, rfl, ?_, ?_⟩
  · exact ((@c1_first_usable_tagged_by_chain_index cfgAce "ace"
      [("anthropic", "claude-x"), ("ollama", "qwen")] (by decide) rfl).1 1
      ("ollama", "qwen") rfl).1
  · exact ((@c1_first_usable_tagged_by_chain_index cfgAce "ace"
      [("anthropic", "claude-x"), ("ollama", "qwen")] (by decide) rfl).1 1
      ("ollama", "qwen") rfl).2

/-- C2: the claim (with the spec's chain rules, where an explicit request's
fall-through chain is the role's FALLBACKS only) says the role primary is
not tried after an unusable explicit pair.  In `cfgLivePrimary` role `ace`
declares no fallbacks at all, yet an unusable explicit pair resolves to the
role's primary — the fall-through consulted the primary, not only the
(empty) fallback chain, where the claim demands exhaustion. -/
theorem c2_explicit_fallthrough_counterexample :
    isModelEnabled cfgLivePrimary "google" "gemini" = false ∧
    (lookup cfgLivePrimary.roles "ace").map RoleCfg.fallbacks = some none ∧
    resolveRuntimeModel (some "ace") (some "google") (some "gemini") cfgLivePrimary =
      .ok ⟨"anthropic", "claude-x", "ace", "primary"⟩ :=
  ⟨rfl, rfl, rfl⟩

/-- C2 (amended): a resolution whose explicit pair is unusable falls
through to the role's FULL candidate chain, behaving exactly as a plain
role resolution (so the fall-through direction is explicit-then-role, never
the reverse), and whenever that fall-through answers with the chain's head
— the role's primary — the answer carries source `primary`, never a
`fallback` tag: the primary is not treated as a fallback of the explicit
request. -/
theorem c2_explicit_unusable_falls_back_to_role_chain {cfg : Config} {r p m : String}
    (hr : r ≠ "") (hp : p ≠ "") (hm : m ≠ "")
    (hun : isModelEnabled cfg p m = false) :
    resolveRuntimeModel (some r) (some p) (some m) cfg =
      resolveRuntimeModel (some r) none none cfg ∧
    (∀ t chain, resolveRuntimeModel (some r) (some p) (some m) cfg = .ok t →
      candidateChain cfg r = .ok chain →
      chain.head? = some (t.provider, t.model) → t.source = "primary") := by
  have hfall : resolveRuntimeModel (some r) (some p) (some m) cfg =
      resolveFromChain cfg r := by
    simp [resolveRuntimeModel, truthy_some_of_ne hp, truthy_some_of_ne hm, hun,
      selectRole_some cfg hr]
  constructor
  · rw [hfall, resolveRuntimeModel_role cfg hr]
  · intro t chain hok hch hhead
    rw [hfall] at hok
    cases hfu : firstUsable cfg chain with
    | none => rw [resolveFromChain_of_none hch hfu] at hok; cases hok
    | some q =>
        obtain ⟨k, c⟩ := q
        rw [resolveFromChain_of_some hch hfu] at hok
        injection hok with hok
        cases chain with
        | nil => cases hhead
        | cons c0 rest =>
            have hc0 : c0 = (t.provider, t.model) := by
              simpa using hhead
            have ht1 : t.provider = c.1 := by rw [← hok]
            have ht2 : t.model = c.2 := by rw [← hok]
            have husable : usable cfg c0 = true := by
              rw [hc0, ht1, ht2]
              exact firstUsable_usable hfu
            have hhd := firstUsable_cons_usable rest husable
            have hk : k = 0 := by
              have h0 := hfu.symm.trans hhd
              simp only [Option.some.injEq, Prod.mk.injEq] at h0
              exact h0.1
            rw [← hok]
            simp [hk]

/-- Witness for C2 at `cfgAce`: the explicit pair `(anthropic, claude-x)` is
unusable (provider disabled) and the call falls through to the role chain. -/
theorem c2_explicit_unusable_falls_back_witness :
    isModelEnabled cfgAce "anthropic" "claude-x" = false ∧
    resolveRuntimeModel (some "ace") (some "anthropic") (some "claude-x") cfgAce =
      resolveRuntimeModel (some "ace") none none cfgAce :=
  ⟨rfl, (@c2_explicit_unusable_falls_back_to_role_chain cfgAce "ace" "anthropic"
    "claude-x" (by decide) (by decide) (by decide) rfl).1⟩

/-- C3: with role `ace`'s primary on a disabled provider and its `(ollama,
qwen)` fallback enabled and listed, resolution SUCCEEDS with `fallback_1`
and cannot raise, whatever the Ollama endpoint's state: `resolve_runtime_model`
consults only the static catalog (`_is_model_enabled`) and takes no
reachability input, so the claimed exhaustion error cannot occur here. -/
theorem c3_resolution_ignores_reachability_counterexample :
    resolveRuntimeModel (some "ace") none none cfgAce =
      .ok ⟨"ollama", "qwen", "ace", "fallback_1"⟩ ∧
    raised (resolveRuntimeModel (some "ace") none none cfgAce) = false :=
  ⟨rfl, rfl⟩

/-- C3 (amended): live reachability enters only the preflight
(`validate_environment`, via `_check_ollama_connectivity`): whatever failure
the connectivity probe reports surfaces there as an issue, while the same
catalog still resolves role `ace` to `(ollama, qwen)` tagged `fallback_1`. -/
theorem c3_reachability_checked_only_in_preflight :
    ∀ err : String,
      validateEnvironment cfgAce envAll (fun _ _ => some err) = .ok [err] ∧
      resolveRuntimeModel (some "ace") none none cfgAce =
        .ok ⟨"ollama", "qwen", "ace", "fallback_1"⟩ :=
  fun _ => ⟨rfl, rfl⟩

/-- C4: `resolve_with_retry` never returns a pair of the exclusion list,
tags every answer `retry_fallback`, and raises the exhaustion error once
the exclusion list covers every usable candidate of the chain. -/
theorem c4_retry_excludes_tried_and_exhausts {cfg : Config} {role reason : String}
    {tried chain : List (String × String)}
    (hch : candidateChain cfg role = .ok chain) :
    (∀ t, resolveWithRetry role reason (some tried) cfg = .ok t →
      tried.contains (t.provider, t.model) = false ∧
      t.source = "retry_fallback" ∧ t.role = role ∧
      (t.provider, t.model) ∈ chain ∧ usable cfg (t.provider, t.model) = true) ∧
    ((∀ c ∈ chain, usable cfg c = true → tried.contains c = true) →
      resolveWithRetry role reason (some tried) cfg =
        .error (exhaustedMsg role reason)) := by
  constructor
  · intro t hok
    simp only [resolveWithRetry, Option.getD_some, hch] at hok
    cases hrl : retryLoop cfg tried chain with
    | none => simp only [hrl] at hok; cases hok
    | some c =>
        obtain ⟨p, m⟩ := c
        simp only [hrl] at hok
        injection hok with hok
        obtain ⟨h1, h2, h3⟩ := retryLoop_some hrl
        rw [← hok]
        exact ⟨h1, rfl, rfl, h2, h3⟩
  · intro hcov
    have hrl := retryLoop_none_of_covered hcov
    simp only [resolveWithRetry, Option.getD_some, hch, hrl]

/-- Witness for C4 at `cfgAce`: excluding the whole previously returned
chain raises the exhaustion error. -/
theorem c4_retry_excludes_tried_witness :
    candidateChain cfgAce "ace" = .ok [("anthropic", "claude-x"), ("ollama", "qwen")] ∧
    resolveWithRetry "ace" "boom"
      (some [("anthropic", "claude-x"), ("ollama", "qwen")]) cfgAce =
      .error (exhaustedMsg "ace" "boom") :=
  ⟨rfl, (@c4_retry_excludes_tried_and_exhausts cfgAce "ace" "boom"
    [("anthropic", "claude-x"), ("ollama", "qwen")]
    [("anthropic", "claude-x"), ("ollama", "qwen")] rfl).2 (by decide)⟩

/-- C5: a catalog whose only role's only candidate sits on a DISABLED
provider passes preflight with an empty issue list — `validate_environment`
checks environment variables, Ollama reachability and chain well-formedness
but never `_is_model_enabled` — while resolving that same role raises.  So
an empty issue list does not imply every declared role resolves. -/
theorem c5_validate_empty_yet_role_unresolvable_counterexample :
    validateEnvironment cfgDeadPrimary envAll (fun _ _ => none) = .ok [] ∧
    resolveRuntimeModel (some "ace") none none cfgDeadPrimary =
      .error (noModelMsg "ace") :=
  ⟨rfl, rfl⟩

/-- C5 (amended): whenever `INFERENCE_TIMEOUT` parses as an integer,
`validate_environment` returns its issues as data (the `int()` call is its
only uncaught exception), and an empty issue list guarantees every declared
role's candidate chain builds — though not that the role resolves. -/
theorem c5_validate_reports_issues_as_data {cfg : Config} {env : Env}
    {checkOllama : String → Int → Option String} {t : Int}
    (ht : pyInt? ((env "INFERENCE_TIMEOUT").getD "10") = some t) :
    (∃ issues, validateEnvironment cfg env checkOllama = .ok issues) ∧
    (validateEnvironment cfg env checkOllama = .ok [] →
      ∀ p ∈ cfg.roles, ∃ chain, candidateChain cfg p.1 = .ok chain) := by
  constructor
  · cases hv : validateEnvironment cfg env checkOllama with
    | ok issues => exact ⟨issues, rfl⟩
    | error e =>
        simp only [validateEnvironment, ht] at hv
        cases hv
  · intro hempty p hp
    simp only [validateEnvironment, ht, Except.ok.injEq] at hempty
    have hsplit := List.append_eq_nil.mp hempty
    have hall := List.filterMap_eq_nil_iff.mp hsplit.2
    have hnone := hall p hp
    cases hcc : candidateChain cfg p.1 with
    | error e => rw [hcc] at hnone; cases hnone
    | ok chain => exact ⟨chain, rfl⟩

/-- Witness for the amended C5 at the dead-primary catalog. -/
theorem c5_validate_reports_issues_witness :
    pyInt? ((envAll "INFERENCE_TIMEOUT").getD "10") = some 10 ∧
    (∃ issues, validateEnvironment cfgDeadPrimary envAll (fun _ _ => none) = .ok issues) ∧
    (∀ p ∈ cfgDeadPrimary.roles, ∃ chain, candidateChain cfgDeadPrimary p.1 = .ok chain) := by
  refine ⟨rfl, ?_, ?_⟩
  · exact (@c5_validate_reports_issues_as_data cfgDeadPrimary envAll
      (fun _ _ => none) 10 rfl).1
  · exact (@c5_validate_reports_issues_as_data cfgDeadPrimary envAll
      (fun _ _ => none) 10 rfl).2 rfl

/-- C6: `resolve_runtime_model` itself, called with an explicit provider and
no explicit model, silently ignores the partial pair and produces a
resolution result — the claim's "never produces a resolution result" fails
at the resolver's boundary (only the CLI front end rejects the request). -/
theorem c6_partial_pair_reaches_resolver_counterexample :
    resolveRuntimeModel (some "ace") (some "anthropic") none cfgLivePrimary =
      .ok ⟨"anthropic", "claude-x", "ace", "primary"⟩ :=
  rfl

/-- C6 (amended): the CLI rejects a partial explicit pair with exit code 2
before calling the resolver, while `resolve_runtime_model` itself treats a
partial pair exactly like no explicit pair at all (plain role resolution). -/
theorem c6_cli_rejects_partial_pair {roleArg providerArg modelArg : Option String}
    {cfg : Config}
    (hgiven : ((truthy providerArg && !truthy modelArg) ||
      (truthy modelArg && !truthy providerArg)) = true) :
    cliResolve roleArg providerArg modelArg cfg = .inputError ∧
    (cliResolve roleArg providerArg modelArg cfg).exitCode = 2 ∧
    resolveRuntimeModel roleArg providerArg modelArg cfg =
      resolveRuntimeModel roleArg none none cfg := by
  have hcli : cliResolve roleArg providerArg modelArg cfg = .inputError := by
    simp only [cliResolve, hgiven, if_true]
  have hand : (truthy providerArg && truthy modelArg) = false := by
    cases hp : truthy providerArg <;> cases hm : truthy modelArg <;> simp_all
  refine ⟨hcli, by rw [hcli]; rfl, ?_⟩
  have hnone : truthy (none : Option String) = false := rfl
  simp [resolveRuntimeModel, hand, hnone]

/-- Witness for the amended C6: `--provider anthropic` with no `--model`. -/
theorem c6_cli_rejects_partial_pair_witness :
    ((truthy (some "anthropic") && !truthy (none : Option String)) ||
      (truthy (none : Option String) && !truthy (some "anthropic"))) = true ∧
    cliResolve (some "ace") (some "anthropic") none cfgLivePrimary = .inputError ∧
    (cliResolve (some "ace") (some "anthropic") none cfgLivePrimary).exitCode = 2 :=
  ⟨rfl,
    (@c6_cli_rejects_partial_pair (some "ace") (some "anthropic") none
      cfgLivePrimary rfl).1,
    (@c6_cli_rejects_partial_pair (some "ace") (some "anthropic") none
      cfgLivePrimary rfl).2.1⟩

/-- C7: catalog `cfgDefaultsPair` declares global default provider and model
(for a usable pair) and no default role, yet a call with neither pair nor
role does not return that pair: it substitutes the hardcoded role `ace` and
raises the unknown-role error — `defaults.provider`/`defaults.model` are
never consulted by `resolve_runtime_model`. -/
theorem c7_defaults_pair_ignored_counterexample :
    truthy cfgDefaultsPair.defaults.provider = true ∧
    truthy cfgDefaultsPair.defaults.model = true ∧
    cfgDefaultsPair.defaults.role = none ∧
    isModelEnabled cfgDefaultsPair "anthropic" "claude-x" = true ∧
    resolveRuntimeModel none none none cfgDefaultsPair =
      .error (unknownRoleMsg "ace") :=
  ⟨rfl, rfl, rfl, rfl, rfl⟩

/-- C7 (amended): with neither an explicit pair nor a role, resolution
substitutes `defaults.role` — or the literal role `ace` when it is absent —
and proceeds as a role resolution; when that substituted role is not
declared, it fails with the unknown-role error.  The global default
provider/model pair plays no part. -/
theorem c7_falls_back_to_default_or_ace_role (cfg : Config) :
    resolveRuntimeModel none none none cfg =
      resolveRuntimeModel (some (cfg.defaults.role.getD "ace")) none none cfg ∧
    (lookup cfg.roles (selectRole none cfg) = none →
      resolveRuntimeModel none none none cfg =
        .error (unknownRoleMsg (selectRole none cfg))) := by
  constructor
  · simp [resolveRuntimeModel, truthy, selectRole]
  · intro hlook
    have hcc : candidateChain cfg (selectRole none cfg) =
        .error (unknownRoleMsg (selectRole none cfg)) := by
      simp [candidateChain, hlook]
    simp [resolveRuntimeModel, truthy, resolveFromChain, hcc]

/-- Witness for the amended C7 at `cfgDefaultsPair` (no roles declared). -/
theorem c7_falls_back_to_default_role_witness :
    lookup cfgDefaultsPair.roles (selectRole none cfgDefaultsPair) = none ∧
    resolveRuntimeModel none none none cfgDefaultsPair =
      .error (unknownRoleMsg (selectRole none cfgDefaultsPair)) :=
  ⟨rfl, (c7_falls_back_to_default_or_ace_role cfgDefaultsPair).2 rfl⟩

/-- C8: `_candidate_chain` does not deduplicate: a policy listing the same
pair as primary and as a fallback yields a chain holding the pair twice,
and when it is unusable the resolution loop probes it once per occurrence
(the probe trace holds it twice). -/
theorem c8_chain_keeps_duplicates_counterexample :
    candidateChain cfgDupPair "ace" =
      .ok [("anthropic", "claude-x"), ("anthropic", "claude-x")] ∧
    probeTrace cfgDupPair [("anthropic", "claude-x"), ("anthropic", "claude-x")] =
      [("anthropic", "claude-x"), ("anthropic", "claude-x")] ∧
    (probeTrace cfgDupPair [("anthropic", "claude-x"), ("anthropic", "claude-x")]).count
      ("anthropic", "claude-x") = 2 :=
  ⟨rfl, rfl, rfl⟩

/-- C8 (amended): within one resolution the loop probes each chain POSITION
at most once and in order — the probed pairs are exactly the chain up to
and including the first usable candidate — but the chain builder keeps
duplicate pairs, so a pair listed twice is probed once per occurrence. -/
theorem c8_probe_trace_stops_at_first_usable {cfg : Config} {r : String}
    {chain : List (String × String)}
    (hch : candidateChain cfg r = .ok chain) :
    (firstUsable cfg chain = none → probeTrace cfg chain = chain) ∧
    (∀ k c, firstUsable cfg chain = some (k, c) →
      probeTrace cfg chain = chain.take (k + 1)) :=
  ⟨fun h => probeTrace_of_firstUsable_none h,
   fun _ _ h => probeTrace_of_firstUsable_some h⟩

/-- Witness for the amended C8 at the duplicate-pair catalog. -/
theorem c8_probe_trace_witness :
    candidateChain cfgDupPair "ace" =
      .ok [("anthropic", "claude-x"), ("anthropic", "claude-x")] ∧
    firstUsable cfgDupPair [("anthropic", "claude-x"), ("anthropic", "claude-x")] = none ∧
    probeTrace cfgDupPair [("anthropic", "claude-x"), ("anthropic", "claude-x")] =
      [("anthropic", "claude-x"), ("anthropic", "claude-x")] :=
  ⟨rfl, rfl,
    (@c8_probe_trace_stops_at_first_usable cfgDupPair "ace"
      [("anthropic", "claude-x"), ("anthropic", "claude-x")] rfl).1 rfl⟩

/-- C9: a webhook URL with no scheme (here a bare host/path) makes
`urllib.request.Request` raise `ValueError` at construction, OUTSIDE the
`try` of `send_discord_alert`, so this failure propagates as an exception
instead of being returned as a failure value. -/
theorem c9_schemeless_webhook_raises_counterexample :
    sendDiscordAlert "discord.com/api/webhooks/123" "Open Fall Triggered"
      "All ACE role providers failed during Discord request." none (.status 204) =
      .error "unknown url type: 'discord.com/api/webhooks/123'" ∧
    raised (sendDiscordAlert "discord.com/api/webhooks/123" "Open Fall Triggered"
      "All ACE role providers failed during Discord request." none (.status 204)) = true :=
  ⟨rfl, rfl⟩

/-- C9 (amended): for an EMPTY webhook URL or one carrying a scheme, every
outcome the code distinguishes — missing URL, any response status, a caught
`URLError`, a timeout — comes back as a returned `{ok, message}` value,
never as an exception. -/
theorem c9_failures_returned_when_url_empty_or_schemed
    {webhookUrl : String} (title description : String) (details : Option String)
    (net : NetOutcome)
    (hurl : webhookUrl = "" ∨ (urlType webhookUrl).isSome = true) :
    ∃ res, sendDiscordAlert webhookUrl title description details net = .ok res := by
  by_cases he : webhookUrl.isEmpty = true
  · exact ⟨⟨false, "Missing Discord webhook URL."⟩, by simp [sendDiscordAlert, he]⟩
  · rcases hurl with h | h
    · exact absurd (by rw [h]; rfl : webhookUrl.isEmpty = true) he
    · cases ht : urlType webhookUrl with
      | none => rw [ht] at h; cases h
      | some scheme =>
          cases net with
          | status code =>
              by_cases hc : (¬code = 200 ∧ ¬code = 204)
              · refine ⟨⟨false, s!"Discord webhook failed with HTTP {code}"⟩, ?_⟩
                simp [sendDiscordAlert, he, ht, hc]
              · refine ⟨⟨true, "Discord alert sent."⟩, ?_⟩
                simp [sendDiscordAlert, he, ht, hc]
          | urlError reason =>
              refine ⟨⟨false, s!"Discord webhook request failed: {reason}"⟩, ?_⟩
              simp [sendDiscordAlert, he, ht]
          | timedOut =>
              refine ⟨⟨false, "Discord webhook request failed: timeout"⟩, ?_⟩
              simp [sendDiscordAlert, he, ht]

/-- Witness for the amended C9: empty URL, connection refused. -/
theorem c9_failures_returned_witness :
    (("" : String) = "" ∨ (urlType "").isSome = true) ∧
    (∃ res, sendDiscordAlert "" "Open Fall Triggered" "desc" none
      (.urlError "Connection refused") = .ok res) :=
  ⟨Or.inl rfl,
    @c9_failures_returned_when_url_empty_or_schemed "" "Open Fall Triggered" "desc"
      none (.urlError "Connection refused") (Or.inl rfl)⟩

/-- C10: `_candidate_chain` raises the unknown-role error when the role key
is missing (or its dict is empty) and the missing-primary error when the
primary's provider or model is absent/empty; otherwise it returns a
non-empty chain whose head is the primary pair and whose tail keeps, in
declared order, exactly the fallback entries with both fields present,
silently dropping the malformed ones. -/
theorem c10_candidate_chain_structure (cfg : Config) (role : String) :
    (lookup cfg.roles role = none →
      candidateChain cfg role = .error (unknownRoleMsg role)) ∧
    (∀ rc, lookup cfg.roles role = some rc → roleFalsy rc = true →
      candidateChain cfg role = .error (unknownRoleMsg role)) ∧
    (∀ rc, lookup cfg.roles role = some rc → roleFalsy rc = false →
      (truthy (rc.primary.getD ⟨none, none⟩).provider = false ∨
        truthy (rc.primary.getD ⟨none, none⟩).model = false) →
      candidateChain cfg role = .error (missingPrimaryMsg role)) ∧
    (∀ rc, lookup cfg.roles role = some rc → roleFalsy rc = false →
      truthy (rc.primary.getD ⟨none, none⟩).provider = true →
      truthy (rc.primary.getD ⟨none, none⟩).model = true →
      candidateChain cfg role =
        .ok (((rc.primary.getD ⟨none, none⟩).provider.getD "",
              (rc.primary.getD ⟨none, none⟩).model.getD "") ::
          (rc.fallbacks.getD []).filterMap (fun fb =>
            if truthy fb.provider && truthy fb.model then
              some (fb.provider.getD "", fb.model.getD "")
            else none))) ∧
    (∀ chain, candidateChain cfg role = .ok chain → chain ≠ []) := by
  refine ⟨?_, ?_, ?_, ?_, ?_⟩
  · intro h
    simp [candidateChain, h]
  · intro rc h hf
    simp [candidateChain, h, hf]
  · intro rc h hf hbad
    rcases hbad with hb | hb
    · simp [candidateChain, h, hf, hb]
    · simp [candidateChain, h, hf, hb]
  · intro rc h hf hp hm
    simp [candidateChain, h, hf, hp, hm, fallbackPairs_eq_filterMap]
  · intro chain hok
    simp only [candidateChain] at hok
    cases hl : lookup cfg.roles role with
    | none => rw [hl] at hok; cases hok
    | some rc =>
        simp only [hl] at hok
        by_cases hf : roleFalsy rc = true
        · rw [if_pos hf] at hok; cases hok
        · rw [if_neg hf] at hok
          by_cases hpm : (truthy (rc.primary.getD ⟨none, none⟩).provider &&
              truthy (rc.primary.getD ⟨none, none⟩).model) = true
          · rw [if_pos hpm] at hok
            injection hok with hok
            rw [← hok]
            exact List.cons_ne_nil _ _
          · rw [if_neg hpm] at hok; cases hok

/-- Witness for C10: the `cfgAce` role chain, head and filtered tail. -/
theorem c10_candidate_chain_structure_witness :
    candidateChain cfgAce "ace" = .ok [("anthropic", "claude-x"), ("ollama", "qwen")] ∧
    ([("anthropic", "claude-x"), ("ollama", "qwen")] : List (String × String)) ≠ [] :=
  ⟨rfl, (c10_candidate_chain_structure cfgAce "ace").2.2.2.2
    [("anthropic", "claude-x"), ("ollama", "qwen")] rfl⟩

end ModelRouter
